import Mathlib

/-!
Shallow embedding of the kqueue watcher library (src/src/lib.rs, ident.rs,
watched.rs, event.rs, time.rs) and proofs about its spec claims.

Machine integers are modelled as `Int`/`Nat` with explicit reductions
modulo `2^32`/`2^64` at the points where the Rust code casts or where
release-mode wrapping arithmetic applies.  Kernel interaction (the
`kevent(2)`/`kqueue(2)` syscalls) is modelled by recording the request
records the code builds and by parametrising over the return value the
kernel would produce.
-/

namespace KqueueRittimo

/-- `as usize` applied to a signed machine integer on a 64-bit target:
sign-extends / wraps the value into `[0, 2^64)`. -/
def intAsUsize (x : Int) : Nat := (x % (2 ^ 64 : Int)).toNat

/-- Reinterpret a `u64` bit pattern as an `i64` (Rust `as i64`). -/
def u64AsI64 (n : Nat) : Int :=
  if n < 2 ^ 63 then (n : Int) else (n : Int) - 2 ^ 64

/-- Wrapping `u64` arithmetic (Rust release-mode overflow semantics). -/
def u64Wrap (n : Nat) : Nat := n % 2 ^ 64

/-- `std::time::Duration`: unsigned seconds plus sub-second nanoseconds.
The Rust type maintains `nanos < 1_000_000_000`; we carry that as a
hypothesis where it matters. -/
structure Duration where
  secs : Nat
  nanos : Nat
deriving DecidableEq, Repr

/-- `EventFilter` from kqueue-sys (a C enum; only the variants the library
touches are modelled). -/
inductive EventFilter where
  | EVFILT_READ
  | EVFILT_WRITE
  | EVFILT_VNODE
  | EVFILT_PROC
  | EVFILT_SIGNAL
  | EVFILT_TIMER
  | EVFILT_SYSCOUNT
deriving DecidableEq, Repr

/-- `FilterFlag` is a `u32` bitmask (bitflags). -/
abbrev FilterFlag := Nat

/-- bitflags `contains`: all bits of `c` are set in `f`. -/
def ffContains (f c : FilterFlag) : Bool :=
  Nat.land f c == c

/-- `FilterFlag::empty()`. -/
def ffEmpty : FilterFlag := 0

def NOTE_FFNOP : FilterFlag := 0

def NOTE_EXIT : FilterFlag := 0x80000000
def NOTE_FORK : FilterFlag := 0x40000000
def NOTE_EXEC : FilterFlag := 0x20000000
def NOTE_TRACK : FilterFlag := 0x00000001
def NOTE_CHILD : FilterFlag := 0x00000004

def NOTE_DELETE : FilterFlag := 0x00000001
def NOTE_WRITE : FilterFlag := 0x00000002
def NOTE_EXTEND : FilterFlag := 0x00000004
def NOTE_ATTRIB : FilterFlag := 0x00000008
def NOTE_LINK : FilterFlag := 0x00000010
def NOTE_RENAME : FilterFlag := 0x00000020
def NOTE_REVOKE : FilterFlag := 0x00000040

/-- `Ident` (src/src/ident.rs).  The Rust `Filename` variant holds an owned
`File` handle, the raw descriptor that was read off that handle, and the
path string; the `File`'s only observable content here is the descriptor
its destructor will close, kept as `fileFd`. -/
inductive Ident where
  | Filename (fileFd : Int) (fd : Int) (name : String)
  | Fd (fd : Int)
  | Pid (pid : Int)
  | Signal (sig : Int)
  | Timer (id : Nat) (dur : Duration)
deriving DecidableEq, Repr

/-- `Ident::as_usize` (src/src/ident.rs:48-56): every variant's numeric key. -/
def Ident.as_usize : Ident → Nat
  | .Filename _ fd _ => intAsUsize fd
  | .Fd fd => intAsUsize fd
  | .Pid pid => intAsUsize pid
  | .Signal sig => intAsUsize sig
  | .Timer timer _ => timer

/-- `impl PartialEq for Ident` (src/src/ident.rs:30-43): a `Filename` on the
left compares path strings (and is unequal to every other variant); any
other left variant compares numeric keys. -/
def Ident.eq : Ident → Ident → Bool
  | .Filename _ _ name, other =>
    match other with
    | .Filename _ _ othername => name == othername
    | _ => false
  | s, o => s.as_usize == o.as_usize

/-- `Watched` (src/src/watched.rs:7-12). -/
structure Watched where
  filter : EventFilter
  flags : FilterFlag
  ident : Ident
deriving DecidableEq, Repr

/-- The derived `PartialEq` on `Watched`: field-by-field, using `Ident`'s
custom equality for the `ident` field. -/
def Watched.eq (a b : Watched) : Bool :=
  a.filter == b.filter && a.flags == b.flags && Ident.eq a.ident b.ident

/-- `impl Hash for Watched` (src/src/watched.rs:14-18) hashes only
`ident.as_usize()`.  A `HashSet` lookup therefore only ever compares the
probe against stored elements reached through the probe's hash; we model
the hash as the key itself (hash collisions between distinct keys are the
negligible SipHash case and are not modelled), so an element is found iff
some stored element agrees on the key AND on `Watched::eq`.  The lookup
evaluates the equality as probe == stored (hashbrown's `Equivalent` puts
the query on the left), which matters because `Ident`'s `PartialEq` is
asymmetric. -/
def hsContains (s : List Watched) (w : Watched) : Bool :=
  s.any fun x => x.ident.as_usize == w.ident.as_usize && Watched.eq w x

/-- `HashSet::insert` under the same hashed-lookup model: appends unless an
equal element is reachable through the hash. -/
def hsInsert (s : List Watched) (w : Watched) : List Watched :=
  if hsContains s w then s else s ++ [w]

/-- `Watcher` (src/src/lib.rs:40-45); `opts` is `KqueueOpts { clear }`. -/
structure Watcher where
  watched : List Watched
  queue : Int
  started : Bool
  optsClear : Bool
deriving DecidableEq, Repr

/-- `Watcher::new` (src/src/lib.rs:171-184), success path: the kernel gave
queue handle `q`. -/
def Watcher.new (q : Int) : Watcher :=
  { watched := [], queue := q, started := false, optsClear := true }

/-- `Watcher::disable_clears` (src/src/lib.rs:188-191). -/
def Watcher.disable_clears (w : Watcher) : Watcher :=
  { w with optsClear := false }

/-- Shared body of the `add_*` methods: `if !contains { insert }`. -/
def Watcher.addWatch (w : Watcher) (watch : Watched) : Watcher :=
  if !hsContains w.watched watch then
    { w with watched := hsInsert w.watched watch }
  else
    w

/-- `Watcher::add_pid` (src/src/lib.rs:194-204). -/
def Watcher.add_pid (w : Watcher) (pid : Int) (filter : EventFilter)
    (flags : FilterFlag) : Watcher :=
  w.addWatch { filter := filter, flags := flags, ident := .Pid pid }

/-- `Watcher::add_filename` (src/src/lib.rs:215-234), success path:
`File::open` returned a handle whose raw descriptor is `fd`; the `Watched`
entry stores the handle, that descriptor, and the path string. -/
def Watcher.add_filename (w : Watcher) (filename : String) (fd : Int)
    (filter : EventFilter) (flags : FilterFlag) : Watcher :=
  w.addWatch { filter := filter, flags := flags,
               ident := .Filename fd fd filename }

/-- `Watcher::add_timer` (src/src/lib.rs:236-246). -/
def Watcher.add_timer (w : Watcher) (id : Nat) (dur : Duration) : Watcher :=
  w.addWatch { filter := .EVFILT_TIMER, flags := NOTE_FFNOP,
               ident := .Timer id dur }

/-- `Watcher::add_fd` (src/src/lib.rs:252-262). -/
def Watcher.add_fd (w : Watcher) (fd : Int) (filter : EventFilter)
    (flags : FilterFlag) : Watcher :=
  w.addWatch { filter := filter, flags := flags, ident := .Fd fd }

/-- `Watcher::add_file` (src/src/lib.rs:268-270): delegates to `add_fd`
with the file's raw descriptor. -/
def Watcher.add_file (w : Watcher) (fileFd : Int) (filter : EventFilter)
    (flags : FilterFlag) : Watcher :=
  w.add_fd fileFd filter flags

/-- `EventFlag` is a `u16` bitmask. -/
abbrev EventFlag := Nat

def EV_ADD : EventFlag := 0x0001
def EV_DELETE : EventFlag := 0x0002
def EV_CLEAR : EventFlag := 0x0020

/-- A change record submitted to `kevent(2)` via `kevent::new(ident, filter,
flags, fflags, data)`. -/
structure KChange where
  ident : Nat
  filter : EventFilter
  flags : EventFlag
  fflags : FilterFlag
  data : Int
deriving DecidableEq, Repr

/-- The outcome of a fallible call: `Result<T, io::Error>` with the error
collapsed to its presence (the code only ever forwards
`Error::last_os_error()`). -/
inductive RustResult (α : Type) where
  | ok (val : α)
  | err
deriving DecidableEq, Repr

/-- `Watcher::delete_kevents` (src/src/lib.rs:272-296): builds the one
`EV_DELETE` change record it submits.  The kernel's answer is a parameter
(`kernelRet`, the return value of `kevent(2)`). -/
def Watcher.delete_kevents_change (ident : Ident) (filter : EventFilter) :
    KChange :=
  { ident := ident.as_usize, filter := filter, flags := EV_DELETE,
    fflags := ffEmpty, data := 0 }

/-- Result of `delete_kevents` given the kernel's return value. -/
def Watcher.delete_kevents_result (kernelRet : Int) : RustResult Unit :=
  if kernelRet == -1 then .err else .ok ()

/-- `Watcher::remove_pid` (src/src/lib.rs:299-312).  Returns the Rust
result, the new watcher state, and the list of change records submitted to
the kernel during the call. -/
def Watcher.remove_pid (w : Watcher) (pid : Int) (filter : EventFilter)
    (kernelRet : Int) : RustResult Bool × Watcher × List KChange :=
  if w.watched.isEmpty then
    (.ok false, w, [])
  else
    let prevLen := w.watched.length
    let watched' := w.watched.filter fun x => !(Ident.eq x.ident (.Pid pid))
    let w' := { w with watched := watched' }
    match Watcher.delete_kevents_result kernelRet with
    | .ok _ => (.ok (decide (watched'.length ≠ prevLen)), w',
        [Watcher.delete_kevents_change (.Pid pid) filter])
    | .err => (.err, w', [Watcher.delete_kevents_change (.Pid pid) filter])

/-- `Watcher::remove_fd` (src/src/lib.rs:315-328). -/
def Watcher.remove_fd (w : Watcher) (fd : Int) (filter : EventFilter)
    (kernelRet : Int) : RustResult Bool × Watcher × List KChange :=
  if w.watched.isEmpty then
    (.ok false, w, [])
  else
    let prevLen := w.watched.length
    let watched' := w.watched.filter fun x => !(Ident.eq x.ident (.Fd fd))
    let w' := { w with watched := watched' }
    match Watcher.delete_kevents_result kernelRet with
    | .ok _ => (.ok (decide (prevLen ≠ watched'.length)), w',
        [Watcher.delete_kevents_change (.Fd fd) filter])
    | .err => (.err, w', [Watcher.delete_kevents_change (.Fd fd) filter])

/-- `Watcher::remove_file` (src/src/lib.rs:331-333): delegates to
`remove_fd` with the file's raw descriptor. -/
def Watcher.remove_file (w : Watcher) (fileFd : Int) (filter : EventFilter)
    (kernelRet : Int) : RustResult Bool × Watcher × List KChange :=
  w.remove_fd fileFd filter kernelRet

/-- The `(raw_ident, data)` pair `Watcher::watch` computes per entry
(src/src/lib.rs:343-352).  The timer data word is
`(dur.as_secs() * 1000 + (dur.subsec_nanos() / 1_000_000) as u64) as i64`,
`u64` arithmetic (wrapping in release builds) reinterpreted as `i64`. -/
def watchRawIdentData : Ident → Nat × Int
  | .Fd fd => (intAsUsize fd, 0)
  | .Filename _ fd _ => (intAsUsize fd, 0)
  | .Pid pid => (intAsUsize pid, 0)
  | .Signal sig => (intAsUsize sig, 0)
  | .Timer ident dur =>
    (ident, u64AsI64 (u64Wrap (u64Wrap (dur.secs * 1000) + dur.nanos / 1000000)))

/-- The change record `Watcher::watch` builds for one entry
(src/src/lib.rs:354-364). -/
def watchChange (optsClear : Bool) (watched : Watched) : KChange :=
  let rd := watchRawIdentData watched.ident
  { ident := rd.1, filter := watched.filter,
    flags := if optsClear then Nat.lor EV_ADD EV_CLEAR else EV_ADD,
    fflags := watched.flags, data := rd.2 }

/-- `Watcher::watch` (src/src/lib.rs:338-386): builds one batched change
list from the whole set, submits it, sets `started = true`, and only then
inspects the kernel's return value. -/
def Watcher.watch (w : Watcher) (kernelRet : Int) :
    RustResult Unit × Watcher × List KChange :=
  let kevs := w.watched.map (watchChange w.optsClear)
  let w' := { w with started := true }
  (if kernelRet == -1 then .err else .ok (), w', kevs)

/-- `duration_to_timespec` (src/src/time.rs:9-22): `tv_sec` is
`d.as_secs() as time_t` (`u64` reinterpreted as `i64`), `tv_nsec` is
`d.subsec_nanos() as c_long`; a negative `tv_sec` or `tv_nsec` panics,
modelled as `none`. -/
def duration_to_timespec (d : Duration) : Option (Int × Int) :=
  let tv_sec : Int := u64AsI64 d.secs
  let tv_nsec : Int := (d.nanos : Int)
  if tv_sec < 0 then none
  else if tv_nsec < 0 then none
  else some (tv_sec, tv_nsec)

/-- A raw kernel event record as returned through the eventlist of
`kevent(2)`. -/
structure KRawEvent where
  ident : Nat
  filter : EventFilter
  fflags : FilterFlag
  data : Int
deriving DecidableEq, Repr

/-- The kernel's behaviour for one wait call: given the timeout argument
(`none` for a null timespec, i.e. block indefinitely), the return value of
`kevent(2)` and the record it wrote. -/
abbrev KernelWait := Option Duration → Int × KRawEvent

/-- The wait request `get_event` issues: its timeout argument and the
eventlist capacity (`nevents`) it passes to `kevent(2)`. -/
structure WaitRequest where
  timeout : Option Duration
  nchanges : Nat
  nevents : Nat
deriving DecidableEq, Repr

/-- The undecoded outcome of `get_event`: `none` on timeout, otherwise the
record that `Event::new` / `Event::from_error` would decode. -/
inductive PollOutcome where
  | event (kev : KRawEvent)
  | errorEvent (kev : KRawEvent)
deriving DecidableEq, Repr

/-- `get_event` (src/src/lib.rs:435-464): issues one wait with eventlist
capacity 1; `-1` yields an error event, `0` (timeout expired) yields
`None`, anything else yields a decoded event. -/
def get_event (_w : Watcher) (kw : KernelWait) (timeout : Option Duration) :
    Option PollOutcome × WaitRequest :=
  let r := kw timeout
  let out : Option PollOutcome :=
    if r.1 == -1 then some (.errorEvent r.2)
    else if r.1 == 0 then none
    else some (.event r.2)
  (out, { timeout := timeout, nchanges := 0, nevents := 1 })

/-- `Watcher::poll` (src/src/lib.rs:390-397): `None` becomes a
zero-duration wait. -/
def Watcher.poll (w : Watcher) (kw : KernelWait) (timeout : Option Duration) :
    Option PollOutcome × WaitRequest :=
  match timeout with
  | some t => get_event w kw (some t)
  | none => get_event w kw (some ⟨0, 0⟩)

/-- `Watcher::poll_forever` (src/src/lib.rs:401-407). -/
def Watcher.poll_forever (w : Watcher) (kw : KernelWait)
    (timeout : Option Duration) : Option PollOutcome × WaitRequest :=
  if timeout.isSome then w.poll kw timeout
  else get_event w kw none

/-- `impl Iterator for EventIter` (src/src/lib.rs:471-477): ends the
sequence immediately when the watcher is not started, otherwise blocks. -/
def eventIterNext (w : Watcher) (kw : KernelWait) : Option PollOutcome :=
  if !w.started then none
  else (get_event w kw none).1

/-- The explicit `libc::close` calls in `impl Drop for Watcher`
(src/src/lib.rs:422-433): the queue handle first, then the descriptor of
every `Fd` and `Filename` entry. -/
def dropExplicitCloses (w : Watcher) : List Int :=
  w.queue :: (w.watched.flatMap fun x =>
    match x.ident with
    | .Fd fd => [fd]
    | .Filename _ fd _ => [fd]
    | _ => [])

/-- The close calls performed by field destructors after the `Drop` body:
dropping `watched` drops each `Ident`, and a `Filename`'s owned `File`
handle closes its descriptor (std `File` closes on drop).  `Fd`/`Pid`/
`Signal`/`Timer` hold no handle, so they close nothing. -/
def dropDestructorCloses (w : Watcher) : List Int :=
  w.watched.flatMap fun x =>
    match x.ident with
    | .Filename fileFd _ _ => [fileFd]
    | _ => []

/-- Every close effect of the whole drop path, as a multiset of the
descriptors closed. -/
def dropCloses (w : Watcher) : List Int :=
  dropExplicitCloses w ++ dropDestructorCloses w

/-- `x as i32` / `as pid_t` on a wider signed value: wrap into
`[-2^31, 2^31)`. -/
def intAsI32 (x : Int) : Int :=
  let m := x % (2 ^ 32 : Int)
  if m < 2 ^ 31 then m else m - 2 ^ 32

/-- `Proc` (src/src/lib.rs:93-112). -/
inductive Proc where
  | Exit (code : Nat)
  | Fork
  | Exec
  | Track (pid : Int)
  | Trackerr
  | Child (pid : Int)
deriving DecidableEq, Repr

/-- `Vnode` (src/src/lib.rs:53-86). -/
inductive Vnode where
  | Delete
  | Write
  | Extend
  | Truncate
  | Attrib
  | Link
  | Rename
  | Revoke
  | Open
  | CloseWrite
  | Close
deriving DecidableEq, Repr

/-- The `EVFILT_PROC` arm of `Event::new` (src/src/event.rs:32-48): an
if-else chain over `ev.fflags.contains(..)`; no branch matching is a
`panic!`, modelled as `none`. -/
def decodeProcData (fflags : FilterFlag) (data : Int) : Option Proc :=
  if ffContains fflags NOTE_EXIT then some (.Exit (intAsUsize data))
  else if ffContains fflags NOTE_FORK then some .Fork
  else if ffContains fflags NOTE_EXEC then some .Exec
  else if ffContains fflags NOTE_TRACK then some (.Track (intAsI32 data))
  else if ffContains fflags NOTE_CHILD then some (.Child (intAsI32 data))
  else none

/-- The `EVFILT_VNODE` arm of `Event::new` (src/src/event.rs:49-70): an
if-else chain falling through to `os::vnode::handle_vnode_extras`, the
platform-specific extension point (its module is outside the embedded
sources), kept abstract as the parameter `extras`. -/
def decodeVnodeData (extras : FilterFlag → Vnode) (fflags : FilterFlag) :
    Vnode :=
  if ffContains fflags NOTE_DELETE then .Delete
  else if ffContains fflags NOTE_WRITE then .Write
  else if ffContains fflags NOTE_EXTEND then .Extend
  else if ffContains fflags NOTE_ATTRIB then .Attrib
  else if ffContains fflags NOTE_LINK then .Link
  else if ffContains fflags NOTE_RENAME then .Rename
  else if ffContains fflags NOTE_REVOKE then .Revoke
  else extras fflags

/-- Spec-side reading of the decoding rule: scan a fixed priority list and
produce the value of the first flag contained in the record's flag bits. -/
def firstMatchingFlag {α : Type} (fflags : FilterFlag) :
    List (FilterFlag × α) → Option α
  | [] => none
  | p :: rest =>
    if ffContains fflags p.1 then some p.2
    else firstMatchingFlag fflags rest

/-- The spec's process priority list: exit > fork > exec > track > child. -/
def procPriorityList (data : Int) : List (FilterFlag × Proc) :=
  [(NOTE_EXIT, .Exit (intAsUsize data)),
   (NOTE_FORK, .Fork),
   (NOTE_EXEC, .Exec),
   (NOTE_TRACK, .Track (intAsI32 data)),
   (NOTE_CHILD, .Child (intAsI32 data))]

/-- The spec's filesystem-node priority list:
delete > write > extend > attrib > link > rename > revoke. -/
def vnodePriorityList : List (FilterFlag × Vnode) :=
  [(NOTE_DELETE, .Delete),
   (NOTE_WRITE, .Write),
   (NOTE_EXTEND, .Extend),
   (NOTE_ATTRIB, .Attrib),
   (NOTE_LINK, .Link),
   (NOTE_RENAME, .Rename),
   (NOTE_REVOKE, .Revoke)]

/-- A concrete watcher state at destruction time: one raw-descriptor entry
(descriptor 5), one filename entry (descriptor 3, held both as the raw
field and inside the owned `File` handle, as `add_filename` builds it),
one pid entry, queue handle 7. -/
def c1DropState : Watcher :=
  { watched := [
      { filter := .EVFILT_READ, flags := ffEmpty, ident := .Fd 5 },
      { filter := .EVFILT_VNODE, flags := NOTE_DELETE,
        ident := .Filename 3 3 "f.txt" },
      { filter := .EVFILT_PROC, flags := NOTE_EXIT, ident := .Pid 11 }],
    queue := 7, started := true, optsClear := true }

/-- C1: on `Drop`, the queue handle (7) and the raw-descriptor entry's
descriptor (5) are indeed closed exactly once, but the filename entry's
descriptor (3) is closed twice: once by the explicit `libc::close(fd)` in
the `Drop` body and once more by the destructor of the `File` handle still
stored inside the `Ident::Filename` variant — a double close, refuting the
"exactly once" part of the claim. -/
theorem c1_drop_double_closes_filename_descriptor :
    (dropCloses c1DropState).count 7 = 1 ∧
    (dropCloses c1DropState).count 5 = 1 ∧
    (dropCloses c1DropState).count 3 = 2 := by decide

/-- C2 counterexample: two `add_pid` calls with the same pid (5) but
different filters leave the set with two entries, not one — the second add
is not a no-op, because the set's membership test uses the derived
field-by-field `Watched` equality (filter and flags included), not the
identifier key alone. -/
theorem c2_same_key_different_filter_two_entries :
    ((((Watcher.new 3).add_pid 5 .EVFILT_PROC NOTE_EXIT).add_pid 5
        .EVFILT_VNODE NOTE_EXIT).watched.length = 2) ∧
    ¬ ((((Watcher.new 3).add_pid 5 .EVFILT_PROC NOTE_EXIT).add_pid 5
        .EVFILT_VNODE NOTE_EXIT).watched.length = 1) := by decide

/-- C2 (amended): an entry's identity in the registration set is the full
(filter, flags, identifier) triple, not the identifier key alone: two adds
sharing the key but differing in filter or flags both insert (the set then
holds two entries for that key), and an add is a no-op exactly when some
existing entry agrees with it on the hash key and on the derived
`Watched` equality, evaluated with the probe on the left as
`HashSet::contains` does. -/
theorem c2_membership_is_full_triple (q pid : Int) (f₁ f₂ : EventFilter)
    (fl₁ fl₂ : FilterFlag) (h : f₁ ≠ f₂ ∨ fl₁ ≠ fl₂) :
    ((((Watcher.new q).add_pid pid f₁ fl₁).add_pid pid f₂ fl₂).watched.length
      = 2) ∧
    ∀ (w : Watcher) (f : EventFilter) (fl : FilterFlag),
      ((w.add_pid pid f fl).watched = w.watched ↔
        hsContains w.watched { filter := f, flags := fl, ident := .Pid pid }
          = true) := by
  constructor
  · rcases h with h | h <;>
      simp [Watcher.new, Watcher.add_pid, Watcher.addWatch, hsInsert,
        hsContains, Watched.eq, Ident.eq, Ident.as_usize, h, Ne.symm h]
  · intro w f fl
    by_cases hc :
        hsContains w.watched { filter := f, flags := fl, ident := .Pid pid }
          = true
    · simp [Watcher.add_pid, Watcher.addWatch, hc]
    · have hfalse :
          hsContains w.watched { filter := f, flags := fl, ident := .Pid pid }
            = false := by
        simpa using hc
      simp only [Watcher.add_pid, Watcher.addWatch, hsInsert, hfalse,
        Bool.not_false, if_true, Bool.false_eq_true, if_false, iff_false]
      intro he
      have hlen := congrArg List.length he
      simp at hlen

/-- C2 witness: the amended theorem applied at pid 5 with the two filters
of the counterexample. -/
theorem c2_membership_witness :
    ((((Watcher.new 3).add_pid 5 .EVFILT_PROC NOTE_EXIT).add_pid 5
        .EVFILT_VNODE NOTE_EXIT).watched.length = 2) :=
  (c2_membership_is_full_triple 3 5 .EVFILT_PROC .EVFILT_VNODE NOTE_EXIT
    NOTE_EXIT (Or.inl (by decide))).1

/-- C3: re-adding the same path is not a no-op.  The first `add_filename`
stores the entry under hash key 3 (its descriptor); the second open
returns a fresh descriptor 4 (the first handle is still open inside the
set), so the lookup probes key 4, finds nothing, and inserts a second
entry: the set size becomes 2 — even though the two `Filename` identifiers
compare equal (path equality), as the second conjunct shows.  The hash
(by descriptor) disagrees with equality (by path), violating the hashed
set's hash/equality consistency requirement. -/
theorem c3_filename_readd_inserts_second_entry :
    ((((Watcher.new 7).add_filename "f.txt" 3 .EVFILT_VNODE
        NOTE_DELETE).add_filename "f.txt" 4 .EVFILT_VNODE
        NOTE_DELETE).watched.length = 2) ∧
    Ident.eq (.Filename 3 3 "f.txt") (.Filename 4 4 "f.txt") = true := by
  decide

/-- C4 counterexample: a fresh (Unstarted) watcher on which the batched
kernel registration fails (`kevent` returns -1, so `watch()` returns an
error) nevertheless ends up with `started = true` — the flag did not
remain unchanged. -/
theorem c4_failed_watch_still_starts :
    (((Watcher.new 7).watch (-1)).1 = .err) ∧
    (((Watcher.new 7).watch (-1)).2.1.started = true) ∧
    (Watcher.new 7).started = false := by decide

/-- C4 (amended): `watch()` sets the `started` flag unconditionally,
before inspecting the kernel's return value: after any `watch()` call —
including one that fails and returns an error — the watcher is Started,
and iteration (which consults the flag) thereafter performs the blocking
wait instead of ending the sequence. -/
theorem c4_watch_sets_started_unconditionally (w : Watcher) (ret : Int) :
    ((w.watch ret).2.1.started = true) ∧
    ((w.watch ret).1 = .err ↔ ret = -1) ∧
    (∀ kw : KernelWait,
      eventIterNext (w.watch ret).2.1 kw
        = (get_event (w.watch ret).2.1 kw none).1) := by
  refine ⟨rfl, ?_, ?_⟩
  · simp only [Watcher.watch]
    by_cases h : ret = -1 <;> simp [h]
  · intro kw
    simp [eventIterNext, Watcher.watch]

/-- C4 witness: the amended theorem at the failed-registration input. -/
theorem c4_watch_sets_started_witness :
    ((Watcher.new 7).watch (-1)).2.1.started = true :=
  (c4_watch_sets_started_unconditionally (Watcher.new 7) (-1)).1

/-- C5 counterexample: on a watcher whose in-process set is empty,
`remove_fd` returns `Ok(false)` immediately and submits no kernel removal
request at all (the change list is empty) — it does not issue an immediate
single-entry `EV_DELETE` request "regardless of whether the set is empty".
The kernel return parameter is set to the error value -1 to show the
kernel is never consulted: the call still succeeds.  `remove_pid` behaves
the same way. -/
theorem c5_empty_set_skips_kernel_removal :
    (((Watcher.new 7).remove_fd 3 .EVFILT_READ (-1)).1 = .ok false) ∧
    (((Watcher.new 7).remove_fd 3 .EVFILT_READ (-1)).2.2 = []) ∧
    (((Watcher.new 7).remove_pid 3 .EVFILT_PROC (-1)).1 = .ok false) ∧
    (((Watcher.new 7).remove_pid 3 .EVFILT_PROC (-1)).2.2 = []) := by decide

/-- C5 (amended): when the in-process set is empty, `remove_pid` and
`remove_fd` return `Ok(false)` immediately, leave the watcher unchanged
and issue no kernel request; when the set is non-empty, each call submits
exactly one single-entry `EV_DELETE` change record — independently of
whether the identifier matches anything and of the `started` flag (the
state is arbitrary here, so `watch()` need never have been called) — and
when the kernel call succeeds and nothing matched in the set, the call
returns `Ok(false)`, never an error. -/
theorem c5_remove_kernel_interaction (w : Watcher) (fd pid : Int)
    (filter : EventFilter) (ret : Int) :
    (w.watched = [] →
      w.remove_fd fd filter ret = (.ok false, w, []) ∧
      w.remove_pid pid filter ret = (.ok false, w, [])) ∧
    (w.watched ≠ [] →
      (w.remove_fd fd filter ret).2.2
        = [Watcher.delete_kevents_change (.Fd fd) filter] ∧
      (w.remove_pid pid filter ret).2.2
        = [Watcher.delete_kevents_change (.Pid pid) filter] ∧
      (Watcher.delete_kevents_change (.Fd fd) filter).flags = EV_DELETE ∧
      (Watcher.delete_kevents_change (.Pid pid) filter).flags = EV_DELETE ∧
      (ret ≠ -1 →
        ((∀ x ∈ w.watched, Ident.eq x.ident (.Fd fd) = false) →
          (w.remove_fd fd filter ret).1 = .ok false) ∧
        ((∀ x ∈ w.watched, Ident.eq x.ident (.Pid pid) = false) →
          (w.remove_pid pid filter ret).1 = .ok false))) := by
  constructor
  · intro hemp
    simp [Watcher.remove_fd, Watcher.remove_pid, hemp]
  · intro hne
    have hempf : w.watched.isEmpty = false := by
      simpa [List.isEmpty_iff] using hne
    refine ⟨?_, ?_, rfl, rfl, ?_⟩
    · simp [Watcher.remove_fd, hempf, Watcher.delete_kevents_result]
      by_cases h : ret = -1 <;> simp [h]
    · simp [Watcher.remove_pid, hempf, Watcher.delete_kevents_result]
      by_cases h : ret = -1 <;> simp [h]
    · intro hret
      constructor
      · intro hnomatch
        have hfilter :
            w.watched.filter (fun x => !(Ident.eq x.ident (.Fd fd)))
              = w.watched := by
          apply List.filter_eq_self.mpr
          intro x hx
          simp [hnomatch x hx]
        simp [Watcher.remove_fd, hempf, Watcher.delete_kevents_result, hret,
          hfilter]
      · intro hnomatch
        have hfilter :
            w.watched.filter (fun x => !(Ident.eq x.ident (.Pid pid)))
              = w.watched := by
          apply List.filter_eq_self.mpr
          intro x hx
          simp [hnomatch x hx]
        simp [Watcher.remove_pid, hempf, Watcher.delete_kevents_result, hret,
          hfilter]

/-- C5 witness: the amended theorem at one-entry watchers — removing
descriptor 3 from a set holding only pid 9, and removing pid 3 from a set
holding only descriptor 9 (no match either way), each with a succeeding
kernel call. -/
theorem c5_remove_kernel_witness :
    ((((Watcher.new 0).add_pid 9 .EVFILT_PROC NOTE_EXIT).remove_fd 3
        .EVFILT_READ 0).1 = .ok false) ∧
    ((((Watcher.new 0).add_fd 9 .EVFILT_READ NOTE_FFNOP).remove_pid 3
        .EVFILT_PROC 0).1 = .ok false) := by
  constructor
  · have h := (c5_remove_kernel_interaction
      ((Watcher.new 0).add_pid 9 .EVFILT_PROC NOTE_EXIT) 3 3 .EVFILT_READ
      0).2 (by decide)
    exact (h.2.2.2.2 (by decide)).1 (by decide)
  · have h := (c5_remove_kernel_interaction
      ((Watcher.new 0).add_fd 9 .EVFILT_READ NOTE_FFNOP) 3 3 .EVFILT_PROC
      0).2 (by decide)
    exact (h.2.2.2.2 (by decide)).2 (by decide)

/-- C6: decoding a process-filter record equals scanning the priority list
exit > fork > exec > track > child and producing the sub-event of the
first flag contained in the record's flag bits (none matching is the
panic); decoding a filesystem-node record equals scanning
delete > write > extend > attrib > link > rename > revoke and falling
through to the platform extension point when none matches.  Both decoders
are functions into a single sub-event, so exactly one sub-event is
produced even when several flag bits are set. -/
theorem c6_decode_is_first_match (fflags : FilterFlag) (data : Int)
    (extras : FilterFlag → Vnode) :
    decodeProcData fflags data
      = firstMatchingFlag fflags (procPriorityList data) ∧
    decodeVnodeData extras fflags
      = ((firstMatchingFlag fflags vnodePriorityList).getD (extras fflags)) := by
  constructor
  · simp only [decodeProcData, procPriorityList, firstMatchingFlag]
  · simp only [decodeVnodeData, vnodePriorityList, firstMatchingFlag]
    repeat' split
    all_goals simp_all

/-- C7: `poll(None)` performs the wait with a zero duration (identical to
`poll(Some(0))`, never a blocking wait); `poll_forever(Some t)` returns
exactly what `poll(Some t)` returns; `poll_forever(None)` issues the wait
with no timeout (a null timespec, blocking indefinitely); every wait
request passes an eventlist capacity of exactly one record; and `None`
comes back exactly when the kernel wait returned 0, i.e. timed out with no
event. -/
theorem c7_poll_semantics (w : Watcher) (kw : KernelWait) (t : Duration)
    (timeout : Option Duration) :
    w.poll kw none = get_event w kw (some ⟨0, 0⟩) ∧
    w.poll kw none = w.poll kw (some ⟨0, 0⟩) ∧
    ((w.poll kw timeout).2.timeout.isSome = true) ∧
    w.poll_forever kw (some t) = w.poll kw (some t) ∧
    w.poll_forever kw none = get_event w kw none ∧
    ((w.poll_forever kw none).2.timeout = none) ∧
    ((get_event w kw timeout).2.nevents = 1) ∧
    ((w.poll kw timeout).2.nevents = 1) ∧
    ((w.poll_forever kw timeout).2.nevents = 1) ∧
    ((get_event w kw timeout).1 = none ↔ (kw timeout).1 = 0) := by
  refine ⟨rfl, rfl, ?_, rfl, rfl, rfl, rfl, ?_, ?_, ?_⟩
  · cases timeout <;> simp [Watcher.poll, get_event]
  · cases timeout <;> simp [Watcher.poll, get_event]
  · cases timeout <;>
      simp [Watcher.poll_forever, Watcher.poll, get_event]
  · simp only [get_event]
    by_cases h1 : (kw timeout).1 = -1
    · simp [h1]
    · by_cases h0 : (kw timeout).1 = 0 <;> simp [h1, h0]

/-- C8 counterexample: for a timer period of 10^16 seconds the
mathematical millisecond value is 10^19, but the auxiliary data word the
`watch()` batch carries is the wrapped `i64` value -8446744073709551616
(the `u64` sum 10^19 does not fit in `i64` and the `as i64` cast wraps):
the word is negative, differs from the specified value, and
`watch()` still returns `Ok` — no fail-fast panic happens on this path.
(10^19 itself is below 2^64, so not even debug-mode overflow checks
would fire: the wrap happens silently in every build profile.) -/
theorem c8_timer_word_wraps_negative :
    (watchRawIdentData (.Timer 7 ⟨10000000000000000, 0⟩)
      = (7, -8446744073709551616)) ∧
    ((10000000000000000 : Int) * 1000 + 0 / 1000000 = 10000000000000000000) ∧
    ((-8446744073709551616 : Int) ≠ 10000000000000000000) ∧
    ((-8446744073709551616 : Int) < 0) ∧
    ((((Watcher.new 0).add_timer 7 ⟨10000000000000000, 0⟩).watch 1).1
      = .ok ()) ∧
    ((((Watcher.new 0).add_timer 7 ⟨10000000000000000, 0⟩).watch 1).2.2
      = [{ ident := 7, filter := .EVFILT_TIMER,
           flags := Nat.lor EV_ADD EV_CLEAR, fflags := NOTE_FFNOP,
           data := -8446744073709551616 }]) := by decide

/-- C8 (amended): whenever the mathematical millisecond value
`secs*1000 + nanos/1_000_000` fits below 2^63, the auxiliary data word
submitted for a timer equals it exactly; beyond that the `u64` arithmetic
and the `as i64` cast wrap silently (see the counterexample).  The
fail-fast (panic) behaviour belongs to the separate wait-timeout
conversion `duration_to_timespec`, which for any `u64` seconds value
panics exactly when the seconds cast to the kernel's signed time type
comes out negative, i.e. when `secs ≥ 2^63`. -/
theorem c8_timer_ms_and_timespec (d : Duration) :
    (d.secs * 1000 + d.nanos / 1000000 < 2 ^ 63 →
      ∀ id : Nat, watchRawIdentData (.Timer id d)
        = (id, ((d.secs * 1000 + d.nanos / 1000000 : Nat) : Int))) ∧
    (d.secs < 2 ^ 64 →
      (duration_to_timespec d = none ↔ 2 ^ 63 ≤ d.secs)) := by
  constructor
  · intro h id
    have h1 : d.secs * 1000 < 2 ^ 64 := by omega
    have h2 : d.secs * 1000 + d.nanos / 1000000 < 2 ^ 64 := by omega
    have e1 : u64Wrap (d.secs * 1000) = d.secs * 1000 := Nat.mod_eq_of_lt h1
    have e2 : u64Wrap (d.secs * 1000 + d.nanos / 1000000)
        = d.secs * 1000 + d.nanos / 1000000 := Nat.mod_eq_of_lt h2
    have e3 : u64AsI64 (d.secs * 1000 + d.nanos / 1000000)
        = ((d.secs * 1000 + d.nanos / 1000000 : Nat) : Int) := if_pos h
    simp [watchRawIdentData, e1, e2, e3]
  · intro hlt
    by_cases hs : d.secs < 2 ^ 63
    · have e : u64AsI64 d.secs = (d.secs : Int) := if_pos hs
      simp only [duration_to_timespec, e]
      have : ¬ ((d.secs : Int) < 0) := by omega
      simp [this]
      omega
    · have e : u64AsI64 d.secs = (d.secs : Int) - 2 ^ 64 := if_neg hs
      simp only [duration_to_timespec, e]
      have : (d.secs : Int) - 2 ^ 64 < 0 := by
        have : (d.secs : Int) < 2 ^ 64 := by exact_mod_cast hlt
        omega
      simp [this]
      omega

/-- C8 witness: the amended theorem at a 1.5-second period (1500 ms) and
at the same duration's timeout conversion. -/
theorem c8_timer_ms_witness :
    watchRawIdentData (.Timer 7 ⟨1, 500000000⟩) = (7, 1500) := by
  have h := (c8_timer_ms_and_timespec ⟨1, 500000000⟩).1 (by norm_num) 7
  simpa using h

/-- C9: equality of non-`Filename` identifiers compares only the numeric
key `as_usize`, ignoring the variant (and a `Timer`'s period): `Fd n`,
`Pid n`, `Signal n` and a `Timer` with key `n` are pairwise equal;
consequently after `remove_fd(fd)` every surviving entry whose key equals
`fd`'s key is a `Filename` — every pid, signal, or timer entry with that
key has been removed along with the descriptor entries. -/
theorem c9_eq_ignores_variant (n : Int) (k : Nat) (d d₁ d₂ : Duration)
    (w : Watcher) (fd : Int) (f : EventFilter) (ret : Int) :
    (Ident.eq (.Fd n) (.Pid n) = true) ∧
    (Ident.eq (.Pid n) (.Fd n) = true) ∧
    (Ident.eq (.Pid n) (.Signal n) = true) ∧
    (Ident.eq (.Fd n) (.Signal n) = true) ∧
    (Ident.eq (.Fd n) (.Timer (intAsUsize n) d) = true) ∧
    (Ident.eq (.Timer k d₁) (.Timer k d₂) = true) ∧
    (∀ x ∈ (w.remove_fd fd f ret).2.1.watched,
      x.ident.as_usize = intAsUsize fd →
      ∃ a b c, x.ident = .Filename a b c) := by
  refine ⟨by simp [Ident.eq, Ident.as_usize], by simp [Ident.eq, Ident.as_usize],
    by simp [Ident.eq, Ident.as_usize], by simp [Ident.eq, Ident.as_usize],
    by simp [Ident.eq, Ident.as_usize], by simp [Ident.eq, Ident.as_usize], ?_⟩
  intro x hx hkey
  cases hw : w.watched.isEmpty with
  | true =>
    have hnil : w.watched = [] := List.isEmpty_iff.mp hw
    rw [Watcher.remove_fd] at hx
    simp [hw, hnil] at hx
  | false =>
    cases hdel : Watcher.delete_kevents_result ret <;>
      · rw [Watcher.remove_fd] at hx
        simp only [hw, Bool.false_eq_true, if_false, hdel] at hx
        rw [List.mem_filter] at hx
        obtain ⟨hxw, hne⟩ := hx
        rw [Bool.not_eq_eq_eq_not, Bool.not_true] at hne
        cases hident : x.ident with
        | Filename a b c => exact ⟨a, b, c, rfl⟩
        | Fd m =>
          rw [hident] at hne hkey
          simp only [Ident.as_usize] at hkey
          simp [Ident.eq, Ident.as_usize, hkey] at hne
        | Pid m =>
          rw [hident] at hne hkey
          simp only [Ident.as_usize] at hkey
          simp [Ident.eq, Ident.as_usize, hkey] at hne
        | Signal m =>
          rw [hident] at hne hkey
          simp only [Ident.as_usize] at hkey
          simp [Ident.eq, Ident.as_usize, hkey] at hne
        | Timer m dm =>
          rw [hident] at hne hkey
          simp only [Ident.as_usize] at hkey
          simp [Ident.eq, Ident.as_usize, hkey] at hne

/-- C9 witness: the equalities at key 3, and the removal consequence on a
watcher holding a pid entry and a filename entry both with key 3:
removing descriptor 3 leaves only the filename entry. -/
theorem c9_eq_ignores_variant_witness :
    Ident.eq (.Fd 3) (.Pid 3) = true :=
  (c9_eq_ignores_variant 3 0 ⟨0, 0⟩ ⟨0, 0⟩ ⟨0, 0⟩ (Watcher.new 0) 0
    .EVFILT_READ 0).1

/-- C10: the public remove operations never touch `Filename` entries: a
`Filename` identifier is unequal to every `Fd` or `Pid` probe (its
equality arm matches only another `Filename`), so every `Filename` entry
of the set survives `remove_fd` — even when the removed descriptor equals
the descriptor stored inside the entry (the statement quantifies over all
`fd`) — and survives `remove_pid`; `remove_file` is literally `remove_fd`
on the file's descriptor.  Filename entries are therefore released only at
destruction. -/
theorem c10_remove_preserves_filename_entries (w : Watcher)
    (fd pid fileFd : Int) (f : EventFilter) (ret : Int) :
    (∀ x ∈ w.watched, (∃ a b c, x.ident = .Filename a b c) →
      x ∈ (w.remove_fd fd f ret).2.1.watched) ∧
    (∀ x ∈ w.watched, (∃ a b c, x.ident = .Filename a b c) →
      x ∈ (w.remove_pid pid f ret).2.1.watched) ∧
    (w.remove_file fileFd f ret = w.remove_fd fileFd f ret) := by
  refine ⟨?_, ?_, rfl⟩
  · intro x hx hfile
    obtain ⟨a, b, c, hid⟩ := hfile
    cases hw : w.watched.isEmpty with
    | true =>
      rw [Watcher.remove_fd]
      simp only [hw, if_true]
      exact hx
    | false =>
      cases hdel : Watcher.delete_kevents_result ret <;>
        · rw [Watcher.remove_fd]
          simp only [hw, Bool.false_eq_true, if_false, hdel]
          rw [List.mem_filter]
          exact ⟨hx, by simp [hid, Ident.eq]⟩
  · intro x hx hfile
    obtain ⟨a, b, c, hid⟩ := hfile
    cases hw : w.watched.isEmpty with
    | true =>
      rw [Watcher.remove_pid]
      simp only [hw, if_true]
      exact hx
    | false =>
      cases hdel : Watcher.delete_kevents_result ret <;>
        · rw [Watcher.remove_pid]
          simp only [hw, Bool.false_eq_true, if_false, hdel]
          rw [List.mem_filter]
          exact ⟨hx, by simp [hid, Ident.eq]⟩

/-- C10 witness: the filename entry with descriptor 3 survives
`remove_fd(3)` — the probe uses the very descriptor stored inside it. -/
theorem c10_remove_preserves_filename_witness :
    ({ filter := .EVFILT_VNODE, flags := NOTE_DELETE,
       ident := .Filename 3 3 "x.txt" } : Watched) ∈
      (((Watcher.new 0).add_filename "x.txt" 3 .EVFILT_VNODE
          NOTE_DELETE).remove_fd 3 .EVFILT_VNODE 1).2.1.watched :=
  (c10_remove_preserves_filename_entries
    ((Watcher.new 0).add_filename "x.txt" 3 .EVFILT_VNODE NOTE_DELETE)
    3 0 0 .EVFILT_VNODE 1).1 _ (by decide) ⟨3, 3, "x.txt", rfl⟩

end KqueueRittimo
